import Mathlib

set_option maxRecDepth 100000

/-!
Verification of the Deadshot-Stats analytics core.

This file is a shallow embedding, in Lean 4, of the analytics functions of
`src/utils/calculations.py` and the validation function of
`src/utils/data_processing.py`.  A pandas `DataFrame` of match-participant
rows is modelled as a `List Row`; nullable columns are `Option` fields;
Python floats are modelled as exact rationals (`ℚ`), with `round(x, n)`
modelled as rounding `x * 10^n` to the nearest integer (the half-to-even
tie-break of Python floats is never exercised by the facts proved here).
Python in-place column assignments (`df['date'] = ...`) are modelled by
returning the updated table alongside the computed result.
-/

/-- Python `round(x, 1)` on the exact rational value. -/
def pyRound1 (q : ℚ) : ℚ := ((round (q * 10) : ℤ) : ℚ) / 10

/-- Python `round(x, 2)` on the exact rational value. -/
def pyRound2 (q : ℚ) : ℚ := ((round (q * 100) : ℤ) : ℚ) / 100

/-- `pandas.Series.unique`: distinct values in first-occurrence order. -/
def uniqAux {α : Type} [DecidableEq α] : List α → List α → List α
  | _, [] => []
  | seen, x :: xs =>
      if x ∈ seen then uniqAux seen xs else x :: uniqAux (x :: seen) xs

/-- Distinct values of a list in first-occurrence order (pandas `unique`). -/
def unique {α : Type} [DecidableEq α] (l : List α) : List α := uniqAux [] l

/-- pandas elementwise `==` on a nullable column: a null (`NaN`) value is
equal to nothing, not even to another null. -/
def peq (a b : Option String) : Bool :=
  match a, b with
  | some x, some y => x == y
  | _, _ => false

/-- pandas elementwise `!=` on a nullable column: negation of `peq`, so a
null value is `!=` everything (as `NaN != NaN` is `True`). -/
def pneq (a b : Option String) : Bool := ! peq a b

/-- pandas `.max()` over a column: `none` on an empty column. -/
def natMaxNE : List ℕ → Option ℕ
  | [] => none
  | x :: xs => some (xs.foldl max x)

/-- pandas `.min()` over a nonempty ℕ column (0 when empty, unreachable). -/
def natMinNE : List ℕ → ℕ
  | [] => 0
  | x :: xs => xs.foldl min x

/-- pandas `.max()` over a nonempty ℕ column (0 when empty, unreachable). -/
def natMaxD : List ℕ → ℕ
  | [] => 0
  | x :: xs => xs.foldl max x

/-- pandas `.max()` over a nonempty ℚ column (0 when empty, unreachable). -/
def qMaxD : List ℚ → ℚ
  | [] => 0
  | x :: xs => xs.foldl max x

/-- Sum of a list of rationals. -/
def qSum (l : List ℚ) : ℚ := l.foldr (· + ·) 0

/-- One match-participant record: one row of the flat table (§3 of the
spec).  `datetime` is minutes since an epoch; `date`/`hour` are the derived
columns that `get_gaming_session_analysis` writes into the table (absent,
i.e. `none`, in fresh tables). -/
structure Row where
  match_id : ℕ
  datetime : ℕ
  game_mode : String
  map_name : String
  team : Option String
  player_name : String
  kills : ℕ
  deaths : ℕ
  assists : Option ℕ
  score : ℕ
  weapon : String
  ping : Option ℕ
  coins : Option ℕ
  match_length : ℕ
  tags : Option ℕ
  date : Option ℕ
  hour : Option ℕ
deriving DecidableEq, Repr

/-- The flat table of match-participant rows. -/
abbrev Table : Type := List Row

/-- `df['datetime'].dt.date`, with a day of 1440 minutes. -/
def dateOf (r : Row) : ℕ := r.datetime / 1440

/-- `df['datetime'].dt.hour`. -/
def hourOf (r : Row) : ℕ := r.datetime % 1440 / 60

/-- `calculate_kd_ratio` (calculations.py line 6): kills/deaths with the
zero-death fallback, rounded to 2 decimals in the division case. -/
def calculate_kd_ratio (kills deaths : ℕ) : ℚ :=
  if deaths = 0 then (if 0 < kills then (kills : ℚ) else 0)
  else pyRound2 ((kills : ℚ) / (deaths : ℚ))

/-- `df[df['match_id'] == m]`. -/
def matchRows (df : Table) (m : ℕ) : Table :=
  List.filter (fun r => r.match_id == m) df

/-- `df[df['player_name'] == p]['match_id'].unique()`. -/
def playerMatches (df : Table) (p : String) : List ℕ :=
  unique ((List.filter (fun r => r.player_name == p) df).map Row.match_id)

/-- Sum of the `score` column of the rows of `md` whose `team` equals `t`
under pandas `==` (so no row matches when `t` is null). -/
def teamScoreSum (md : Table) (t : Option String) : ℕ :=
  ((List.filter (fun r => peq r.team t) md).map Row.score).sum

/-- `match_data[match_data['team'] != t]` (pandas `!=`). -/
def otherTeamRows (md : Table) (t : Option String) : Table :=
  List.filter (fun r => pneq r.team t) md

/-- The distinct team names of `other_teams.groupby('team')`: null keys are
dropped by pandas `groupby`. -/
def otherTeamNames (md : Table) (t : Option String) : List (Option String) :=
  unique ((List.filter (fun r => r.team ≠ none) (otherTeamRows md t)).map Row.team)

/-- `other_teams.groupby('team')['score'].sum().max()`: `none` when there is
no non-null team among the other rows. -/
def maxOtherTeamScore (md : Table) (t : Option String) : Option ℕ :=
  natMaxNE ((otherTeamNames md t).map (fun u => teamScoreSum (otherTeamRows md t) u))

/-- The per-match win/loss/draw attribution of `calculate_player_wins`
(calculations.py lines 201-228) for one `match_id`, as `(wins, losses)`
increments: `(1,0)` win, `(0,1)` loss, `(0,0)` draw or degenerate.
A `'Team'` match compares the player's team score sum against the largest
other team's sum; every other mode compares the player's first row's
individual `score` against the match maximum.  When pandas yields `NaN`
(no other non-null team) both comparisons are `False`, hence `(0,0)`. -/
def matchOutcome (df : Table) (p : String) (m : ℕ) : ℕ × ℕ :=
  let md := matchRows df m
  match md.head? with
  | none => (0, 0)
  | some r0 =>
    if r0.game_mode = "Team" then
      match (List.filter (fun r => r.player_name == p) md).head? with
      | none => (0, 0)
      | some pr =>
        let ts := teamScoreSum md pr.team
        if otherTeamRows md pr.team = [] then (0, 0)
        else
          match maxOtherTeamScore md pr.team with
          | none => (0, 0)
          | some mx =>
            if ts > mx then (1, 0) else if ts < mx then (0, 1) else (0, 0)
    else
      match (List.filter (fun r => r.player_name == p) md).head? with
      | none => (0, 0)
      | some pr =>
        match natMaxNE (md.map Row.score) with
        | none => (0, 0)
        | some mx => if pr.score = mx then (1, 0) else (0, 1)

/-- `calculate_player_wins` (calculations.py lines 192-231): total wins,
losses, and the win rate `round(wins/(wins+losses)*100, 1)` with fallback
`0.0` when no match was decided. -/
def calculate_player_wins (df : Table) (p : String) : ℕ × ℕ × ℚ :=
  if df = [] then (0, 0, 0)
  else
    let ms := playerMatches df p
    let w := (ms.map (fun m => (matchOutcome df p m).1)).sum
    let l := (ms.map (fun m => (matchOutcome df p m).2)).sum
    (w, l, if 0 < w + l then pyRound1 ((w : ℚ) / ((w : ℚ) + (l : ℚ)) * 100) else 0)

/-- One value of the `get_team_stats` dictionary. -/
structure TeamEntry where
  «matches» : ℕ
  wins : ℕ
  losses : ℕ
  win_rate : ℚ
  total_kills : ℕ
  total_deaths : ℕ
  total_score : ℕ
  avg_score_per_match : ℚ
deriving DecidableEq, Repr

/-- The win/loss tally of one team over its matches, from the loop of
`get_team_stats` (calculations.py lines 299-312). -/
def teamWinLoss (tdf : Table) (t : String) (ms : List ℕ) : ℕ × ℕ :=
  ms.foldl
    (fun (wl : ℕ × ℕ) m =>
      let md := List.filter (fun r => r.match_id == m && r.team == some t) tdf
      let others := List.filter (fun r => r.match_id == m && r.team != some t) tdf
      if others = [] then wl
      else
        let ts := (md.map Row.score).sum
        match natMaxNE ((unique (others.map Row.team)).map
            (fun u => ((List.filter (fun r => peq r.team u) others).map Row.score).sum)) with
        | none => wl
        | some mx =>
          if ts > mx then (wl.1 + 1, wl.2)
          else if ts < mx then (wl.1, wl.2 + 1) else wl)
    (0, 0)

/-- `get_team_stats` (calculations.py lines 281-325), as an association
list keyed by team name in first-occurrence order. -/
def get_team_stats (df : Table) : List (String × TeamEntry) :=
  if df = [] then []
  else
    let tdf := List.filter (fun r => r.team ≠ none) df
    if tdf = [] then []
    else
      (unique (tdf.filterMap Row.team)).map (fun t =>
        let td := List.filter (fun r => r.team == some t) tdf
        let ms := unique (td.map Row.match_id)
        let wl := teamWinLoss tdf t ms
        (t, { «matches» := ms.length
              wins := wl.1
              losses := wl.2
              win_rate := if 0 < wl.1 + wl.2
                then pyRound1 ((wl.1 : ℚ) / ((wl.1 : ℚ) + (wl.2 : ℚ)) * 100) else 0
              total_kills := (td.map Row.kills).sum
              total_deaths := (td.map Row.deaths).sum
              total_score := (td.map Row.score).sum
              avg_score_per_match := pyRound1
                (((ms.map (fun m =>
                    ((List.filter (fun r => r.match_id == m) td).map Row.score).sum)).sum : ℚ)
                  / (ms.length : ℚ)) }))

/-- The dictionary returned by `get_player_stats` (calculations.py lines
233-279).  Field names follow the Python dict keys (`kd_ratio` etc.);
`avg_ping` is `none` when no ping data exists. -/
structure PlayerStats where
  total_matches : ℕ
  total_kills : ℕ
  total_deaths : ℕ
  total_assists : ℕ
  total_score : ℕ
  total_coins : ℕ
  total_minutes : ℕ
  wins : ℕ
  losses : ℕ
  win_rate : ℚ
  avg_kills_per_match : ℚ
  avg_deaths_per_match : ℚ
  avg_assists_per_match : ℚ
  avg_score_per_match : ℚ
  kills_per_minute : ℚ
  deaths_per_minute : ℚ
  assists_per_minute : ℚ
  score_per_minute : ℚ
  kd_ratio : ℚ
  best_match_kills : ℕ
  best_match_score : ℕ
  best_match_assists : ℕ
  favorite_weapon : String
  avg_ping : Option ℚ
deriving DecidableEq, Repr

instance : Inhabited PlayerStats :=
  ⟨{ total_matches := 0, total_kills := 0, total_deaths := 0, total_assists := 0
     total_score := 0, total_coins := 0, total_minutes := 0, wins := 0, losses := 0
     win_rate := 0, avg_kills_per_match := 0, avg_deaths_per_match := 0
     avg_assists_per_match := 0, avg_score_per_match := 0, kills_per_minute := 0
     deaths_per_minute := 0, assists_per_minute := 0, score_per_minute := 0
     kd_ratio := 0, best_match_kills := 0, best_match_score := 0
     best_match_assists := 0, favorite_weapon := "Unknown", avg_ping := none }⟩

/-- The lexicographically smallest string of a list (`none` on `[]`):
`Series.mode().iloc[0]` returns the smallest among the most frequent
values, since pandas `mode` sorts its result ascending. -/
def minString : List String → Option String
  | [] => none
  | x :: rest => some (rest.foldl (fun a b => if b < a then b else a) x)

/-- `player_df['weapon'].mode().iloc[0]`, with the `'Unknown'` fallback on
an empty column. -/
def modeFirst (l : List String) : String :=
  let u := unique l
  let mx := natMaxD (u.map (fun s => (l.filter (fun t => t == s)).length))
  match minString (u.filter (fun s => (l.filter (fun t => t == s)).length == mx)) with
  | some s => s
  | none => "Unknown"

/-- Per-match sums of a per-row statistic, `pdf.groupby('match_id')[c].sum()`
(pandas skips nulls inside a group, summing an all-null group to 0). -/
def perMatchSums (pdf : Table) (mids : List ℕ) (stat : Row → ℕ) : List ℕ :=
  mids.map (fun m => ((List.filter (fun r => r.match_id == m) pdf).map stat).sum)

/-- `get_player_stats` (calculations.py lines 233-279): `none` models the
empty dict returned for an empty table or an unknown player.  An empty
`player_name` models Python's falsy `player_name=None` (the whole table is
aggregated, as in the source). -/
def get_player_stats (df : Table) (player : String) : Option PlayerStats :=
  if df = [] then none
  else
    let pdf := if player ≠ "" then List.filter (fun r => r.player_name == player) df else df
    if pdf = [] then none
    else
      let wlr := calculate_player_wins df player
      let total_minutes := (pdf.map Row.match_length).sum
      let mids := unique (pdf.map Row.match_id)
      let nM : ℚ := (mids.length : ℚ)
      let kSums := perMatchSums pdf mids Row.kills
      let dSums := perMatchSums pdf mids Row.deaths
      let aSums := perMatchSums pdf mids (fun r => r.assists.getD 0)
      let sSums := perMatchSums pdf mids Row.score
      let anyAssists := ¬ pdf.all (fun r => r.assists == none)
      some
        { total_matches := mids.length
          total_kills := (pdf.map Row.kills).sum
          total_deaths := (pdf.map Row.deaths).sum
          total_assists := if anyAssists then (pdf.map (fun r => r.assists.getD 0)).sum else 0
          total_score := (pdf.map Row.score).sum
          total_coins := (pdf.map (fun r => r.coins.getD 0)).sum
          total_minutes := total_minutes
          wins := wlr.1
          losses := wlr.2.1
          win_rate := wlr.2.2
          avg_kills_per_match := pyRound1 ((kSums.sum : ℚ) / nM)
          avg_deaths_per_match := pyRound1 ((dSums.sum : ℚ) / nM)
          avg_assists_per_match := if anyAssists then pyRound1 ((aSums.sum : ℚ) / nM) else 0
          avg_score_per_match := pyRound1 ((sSums.sum : ℚ) / nM)
          kills_per_minute := if 0 < total_minutes
            then pyRound2 (((pdf.map Row.kills).sum : ℚ) / (total_minutes : ℚ)) else 0
          deaths_per_minute := if 0 < total_minutes
            then pyRound2 (((pdf.map Row.deaths).sum : ℚ) / (total_minutes : ℚ)) else 0
          assists_per_minute := if anyAssists ∧ 0 < total_minutes
            then pyRound2 (((pdf.map (fun r => r.assists.getD 0)).sum : ℚ) / (total_minutes : ℚ))
            else 0
          score_per_minute := if 0 < total_minutes
            then pyRound2 (((pdf.map Row.score).sum : ℚ) / (total_minutes : ℚ)) else 0
          kd_ratio := calculate_kd_ratio (pdf.map Row.kills).sum (pdf.map Row.deaths).sum
          best_match_kills := natMaxD kSums
          best_match_score := natMaxD sSums
          best_match_assists := if anyAssists then natMaxD aSums else 0
          favorite_weapon := modeFirst (pdf.map Row.weapon)
          avg_ping := if pdf.all (fun r => r.ping == none) then none
            else some (pyRound1 (((pdf.filterMap Row.ping).sum : ℚ)
              / ((pdf.filterMap Row.ping).length : ℚ))) }

/-- The role record of `get_player_role_analysis` (calculations.py lines
513-570): the rule-based primary role and the five normalized strengths. -/
structure RoleInfo where
  primary_role : String
  killing_power : ℚ
  support_value : ℚ
  survival_rate : ℚ
  winning_ability : ℚ
  consistency : ℚ
deriving DecidableEq, Repr

/-- The fixed-priority role rule of `get_player_role_analysis` (lines
531-546). -/
def primaryRoleOf (s : PlayerStats) : String :=
  if s.kd_ratio > 3/2 ∧ s.kills_per_minute > 4/5 then "Killer"
  else if s.assists_per_minute > 3/10 ∧ s.deaths_per_minute < 1/2 then "Support"
  else if s.kd_ratio < 4/5 ∧ s.deaths_per_minute > 4/5 then "Aggressive"
  else if s.win_rate > 60 ∧ s.kd_ratio > 1 then "Leader"
  else "Balanced"

/-- The role record computed from one player's stats (lines 531-555). -/
def roleInfoOf (s : PlayerStats) : RoleInfo :=
  { primary_role := primaryRoleOf s
    killing_power := min (s.kd_ratio / 2) 1
    support_value := min (s.assists_per_minute / (1/2)) 1
    survival_rate := max (1 - s.deaths_per_minute / 1) 0
    winning_ability := s.win_rate / 100
    consistency := min ((s.total_matches : ℚ) / 20) 1 }

/-- `get_player_role_analysis` (calculations.py lines 513-570), as an
association list keyed by player name. -/
def get_player_role_analysis (df : Table) : List (String × RoleInfo) :=
  if df = [] then []
  else
    (unique (df.map Row.player_name)).filterMap (fun p =>
      match get_player_stats df p with
      | none => none
      | some s => some (p, roleInfoOf s))

/-- The dict returned by `simulate_team_scenario` (calculations.py lines
885-960).  `head_to_head_win_rate` is `none` when no opponent roster was
supplied or none of its players has stats (the key is then absent). -/
structure TeamPerf where
  total_kd_ratio : ℚ
  avg_kd_ratio : ℚ
  total_win_rate : ℚ
  total_kills_per_min : ℚ
  total_assists_per_min : ℚ
  total_matches : ℕ
  team_size : ℕ
  synergy_score : ℕ
  predicted_win_rate : ℚ
  head_to_head_win_rate : Option ℚ
deriving DecidableEq, Repr

/-- The players of a roster that have stats, in roster order with
duplicates collapsed (Python accumulates them as dict keys). -/
def knownPlayers (df : Table) (comp : List String) : List String :=
  unique (comp.filter (fun p => (get_player_stats df p).isSome))

/-- The stats records of the known players of a roster. -/
def rosterStats (df : Table) (comp : List String) : List PlayerStats :=
  (knownPlayers df comp).map (fun p => (get_player_stats df p).getD default)

instance : Inhabited RoleInfo :=
  ⟨{ primary_role := "Balanced", killing_power := 0, support_value := 0
     survival_rate := 0, winning_ability := 0, consistency := 0 }⟩

/-- The `roles` list of `simulate_team_scenario` (lines 916-918): one entry
per roster entry found in the role analysis, duplicates kept. -/
def rosterRoles (df : Table) (comp : List String) : List String :=
  (comp.filter (fun p => ((get_player_role_analysis df).lookup p).isSome)).map
    (fun p => (((get_player_role_analysis df).lookup p).getD default).primary_role)

/-- The synergy score of `simulate_team_scenario` (lines 920-930). -/
def synergyOf (roles : List String) : ℕ :=
  min ((unique roles).length * 10
    + (if "Killer" ∈ roles ∧ "Support" ∈ roles then 20 else 0)
    + (if "Leader" ∈ roles then 15 else 0)) 100

/-- `min(avg_kd*25 + win_rate*0.5, 95)`, the base strength of a roster
(lines 933 and 953). -/
def baseStrength (avg_kd twr : ℚ) : ℚ := min (avg_kd * 25 + twr * (1/2)) 95

/-- `simulate_team_scenario` (calculations.py lines 885-960): `none` models
the empty dict returned when the table is empty or no roster player has
stats. -/
def simulate_team_scenario (df : Table) (comp : List String)
    (opp : Option (List String)) : Option TeamPerf :=
  if df = [] then none
  else
    let known := knownPlayers df comp
    if known = [] then none
    else
      let sts := rosterStats df comp
      let n : ℚ := (known.length : ℚ)
      let avg_kd := qSum (sts.map PlayerStats.kd_ratio) / n
      let twr := qSum (sts.map PlayerStats.win_rate) / n
      let synergy := synergyOf (rosterRoles df comp)
      let predicted := min (baseStrength avg_kd twr + (synergy : ℚ) * (3/10)) 95
      let h2h : Option ℚ :=
        match opp with
        | none => none
        | some olist =>
          let oknown := knownPlayers df olist
          if oknown = [] then none
          else
            let osts := rosterStats df olist
            let om : ℚ := (oknown.length : ℚ)
            let ostrength := baseStrength (qSum (osts.map PlayerStats.kd_ratio) / om)
              (qSum (osts.map PlayerStats.win_rate) / om)
            some (max (min (50 + (predicted - ostrength) * (4/5)) 95) 5)
      some
        { total_kd_ratio := qSum (sts.map PlayerStats.kd_ratio)
          avg_kd_ratio := avg_kd
          total_win_rate := twr
          total_kills_per_min := qSum (sts.map PlayerStats.kills_per_minute)
          total_assists_per_min := qSum (sts.map PlayerStats.assists_per_minute)
          total_matches := natMaxD (sts.map PlayerStats.total_matches)
          team_size := known.length
          synergy_score := synergy
          predicted_win_rate := predicted
          head_to_head_win_rate := h2h }

/-- Insert into a sorted list, before the first element that is not
strictly smaller (so an element coming earlier in the input stays first
among equals, as in Python's stable sort). -/
def insertLe {α : Type} (le : α → α → Bool) (x : α) : List α → List α
  | [] => [x]
  | y :: ys => if le x y then x :: y :: ys else y :: insertLe le x ys

/-- A stable ascending sort (Python `list.sort` / `sorted`). -/
def pySort {α : Type} (le : α → α → Bool) : List α → List α
  | [] => []
  | x :: xs => insertLe le x (pySort le xs)

/-- One entry of the `match_results` list of `get_player_streaks`. -/
structure MatchResult where
  mid : ℕ
  won : Bool
  dt : ℕ
deriving DecidableEq, Repr

/-- The per-match boolean of `get_player_streaks` (calculations.py lines
126-142): in a `'Team'` match the player's team must strictly beat the
best other team (a draw or a degenerate single-team match counts `false`);
otherwise the player's first row's score must equal the match maximum. -/
def wonMatch (df : Table) (p : String) (m : ℕ) : Bool :=
  let md := matchRows df m
  match md.head? with
  | none => false
  | some r0 =>
    if r0.game_mode = "Team" then
      match (List.filter (fun r => r.player_name == p) md).head? with
      | none => false
      | some pr =>
        if otherTeamRows md pr.team = [] then false
        else
          match maxOtherTeamScore md pr.team with
          | none => false
          | some mx => teamScoreSum md pr.team > mx
    else
      match (List.filter (fun r => r.player_name == p) md).head? with
      | none => false
      | some pr =>
        match natMaxNE (md.map Row.score) with
        | none => false
        | some mx => pr.score == mx

/-- The unsorted `match_results` list (lines 122-148); the datetime of a
match is taken from its first row. -/
def matchResults (df : Table) (p : String) : List MatchResult :=
  (playerMatches df p).map (fun m =>
    { mid := m, won := wonMatch df p m
      dt := ((matchRows df m).head?.map Row.datetime).getD 0 })

/-- `match_results.sort(key=lambda x: x['datetime'])` (line 151). -/
def sortedResults (df : Table) (p : String) : List MatchResult :=
  pySort (fun a b => a.dt ≤ b.dt) (matchResults df p)

/-- The chronological win/loss booleans of one player. -/
def streakBools (df : Table) (p : String) : List Bool :=
  (sortedResults df p).map MatchResult.won

/-- One step of the streak loop (lines 162-172); the state is
`(current_win_streak, current_loss_streak, max_win_streak, max_loss_streak)`. -/
def streakStep (st : ℕ × ℕ × ℕ × ℕ) (b : Bool) : ℕ × ℕ × ℕ × ℕ :=
  if b then (st.1 + 1, 0, max st.2.2.1 (st.1 + 1), st.2.2.2)
  else (0, st.2.1 + 1, st.2.2.1, max st.2.2.2 (st.2.1 + 1))

/-- The single scan over the win/loss booleans (lines 154-172). -/
def streakScan (bs : List Bool) : ℕ × ℕ × ℕ × ℕ := bs.foldl streakStep (0, 0, 0, 0)

/-- The dictionary returned by `get_player_streaks`. -/
structure Streaks where
  current_streak : ℤ
  max_win_streak : ℕ
  max_loss_streak : ℕ
  recent_win_rate : ℚ
  total_matches : ℕ
  total_wins : ℕ
  total_losses : ℕ
deriving DecidableEq, Repr

/-- The result of a call to `get_player_streaks`: the empty dict for an
empty table or falsy player name, the stats dict, or the
`ZeroDivisionError` that line 180 raises when the player has no matches
(`len(recent_matches)` is 0). -/
inductive StreaksResult where
  | emptyDict : StreaksResult
  | ok : Streaks → StreaksResult
  | zeroDivErr : StreaksResult
deriving DecidableEq, Repr

/-- `get_player_streaks` (calculations.py lines 114-190). -/
def get_player_streaks (df : Table) (p : String) : StreaksResult :=
  if df = [] ∨ p = "" then .emptyDict
  else
    let rs := sortedResults df p
    let bs := rs.map MatchResult.won
    let sc := streakScan bs
    match rs.getLast? with
    | none => .zeroDivErr
    | some lastR =>
      let recent := if 10 ≤ rs.length then rs.drop (rs.length - 10) else rs
      let rw := (recent.filter (fun r => r.won)).length
      .ok
        { current_streak := if lastR.won then (sc.1 : ℤ) else -(sc.2.1 : ℤ)
          max_win_streak := sc.2.2.1
          max_loss_streak := sc.2.2.2
          recent_win_rate := pyRound1 ((rw : ℚ) / (recent.length : ℚ) * 100)
          total_matches := rs.length
          total_wins := (rs.filter (fun r => r.won)).length
          total_losses := (rs.filter (fun r => ! r.won)).length }

/-- Length of the initial run of `b` at the head of a boolean list. -/
def headRun (b : Bool) (bs : List Bool) : ℕ :=
  (bs.takeWhile (fun x => x == b)).length

/-- Length of the final (most recent) run of `b` of a boolean list. -/
def suffixRun (b : Bool) (bs : List Bool) : ℕ := headRun b bs.reverse

/-- Maximum of a list of naturals (0 on `[]`). -/
def natMaxF (l : List ℕ) : ℕ := l.foldr max 0

/-- The longest run of consecutive `b`s anywhere in a boolean list,
specified as the largest run that ends at some position: the maximum, over
all suffix positions of the reversed list, of the run of `b` read
backwards from there. -/
def maxRun (b : Bool) (bs : List Bool) : ℕ :=
  natMaxF (bs.reverse.tails.map (headRun b))

/-- The last `n` elements of a list (`l[-n:]`). -/
def lastN {α : Type} (n : ℕ) (l : List α) : List α := l.drop (l.length - n)

/-- Mean of a list of rationals (0 on `[]`, unreachable where used). -/
def qMean (l : List ℚ) : ℚ := qSum l / (l.length : ℚ)

/-- One row of the `daily_stats` frame of `get_gaming_session_analysis`
(calculations.py lines 774-802). -/
structure Daily where
  date : ℕ
  «matches» : ℕ
  kills : ℕ
  deaths : ℕ
  assists : ℕ
  score : ℕ
  players : ℕ
  kd_ratio : ℚ
  avg_score_per_match : ℚ
  avg_kills_per_match : ℚ
  session_id : ℕ
deriving DecidableEq, Repr

/-- One value of the `session_analysis` dict (lines 809-819). -/
structure SessionInfo where
  start_date : ℕ
  end_date : ℕ
  duration_days : ℕ
  total_matches : ℕ
  total_kills : ℕ
  avg_kd_ratio : ℚ
  avg_score_per_match : ℚ
  peak_performance_day : ℕ
  peak_kd_ratio : ℚ
deriving DecidableEq, Repr

/-- One row of the `hourly_performance` frame (lines 822-832). -/
structure Hourly where
  hour : ℕ
  kills : ℚ
  deaths : ℚ
  score : ℚ
  count : ℕ
  kd_ratio : ℚ
deriving DecidableEq, Repr

/-- The dict returned by `get_gaming_session_analysis`. -/
structure SessionAnalysis where
  daily_stats : List Daily
  session_analysis : List (ℕ × SessionInfo)
  hourly_performance : List Hourly
  total_sessions : ℕ
  avg_session_duration : ℚ
deriving DecidableEq, Repr

/-- The session-id chain of lines 795-802, continued after a first date:
a gap of more than one day starts a new session. -/
def sessionIdsAux : ℕ → ℕ → List ℕ → List ℕ
  | _, _, [] => []
  | prev, sid, d :: ds =>
      let sid' := if d - prev > 1 then sid + 1 else sid
      sid' :: sessionIdsAux d sid' ds

/-- The session ids assigned to the sorted list of play dates (lines
792-802): the first date gets session 1. -/
def sessionIds : List ℕ → List ℕ
  | [] => []
  | d :: ds => 1 :: sessionIdsAux d 1 ds

/-- One `daily_stats` row: the aggregates of `df.groupby('date')` for one
date (lines 774-788), tagged with its session id. -/
def dailyFor (df : Table) (d : ℕ) (sid : ℕ) : Daily :=
  let sub := List.filter (fun r => dateOf r == d) df
  let mcount := (unique (sub.map Row.match_id)).length
  let k := (sub.map Row.kills).sum
  let de := (sub.map Row.deaths).sum
  let sc := (sub.map Row.score).sum
  { date := d
    «matches» := mcount
    kills := k
    deaths := de
    assists := (sub.map (fun r => r.assists.getD 0)).sum
    score := sc
    players := (unique (sub.map Row.player_name)).length
    kd_ratio := if 0 < de then (k : ℚ) / (de : ℚ) else (k : ℚ)
    avg_score_per_match := (sc : ℚ) / (mcount : ℚ)
    avg_kills_per_match := (k : ℚ) / (mcount : ℚ)
    session_id := sid }

/-- The sorted distinct play dates of a table (`groupby('date')` sorts its
keys ascending; the later `sort_values('date')` is a no-op). -/
def playDates (df : Table) : List ℕ :=
  pySort (fun a b => a ≤ b) (unique (df.map dateOf))

/-- The full `daily_stats` frame with session ids. -/
def dailyStats (df : Table) : List Daily :=
  List.zipWith (dailyFor df) (playDates df) (sessionIds (playDates df))

/-- The `session_analysis` entry of one session id (lines 806-819);
`peak_performance_day` is the date of the first row attaining the maximal
daily K/D (`idxmax`). -/
def sessionInfoFor (daily : List Daily) (sid : ℕ) : SessionInfo :=
  let sd := daily.filter (fun x => x.session_id == sid)
  let mx := qMaxD (sd.map Daily.kd_ratio)
  { start_date := natMinNE (sd.map Daily.date)
    end_date := natMaxD (sd.map Daily.date)
    duration_days := natMaxD (sd.map Daily.date) - natMinNE (sd.map Daily.date) + 1
    total_matches := (sd.map Daily.«matches»).sum
    total_kills := (sd.map Daily.kills).sum
    avg_kd_ratio := qMean (sd.map Daily.kd_ratio)
    avg_score_per_match := qMean (sd.map Daily.avg_score_per_match)
    peak_performance_day := ((sd.find? (fun x => x.kd_ratio == mx)).map Daily.date).getD 0
    peak_kd_ratio := mx }

/-- One `hourly_performance` row: the mean per-row aggregates of
`df.groupby('hour')` for one hour (lines 822-832). -/
def hourlyFor (df : Table) (h : ℕ) : Hourly :=
  let sub := List.filter (fun r => hourOf r == h) df
  let n : ℚ := (sub.length : ℚ)
  let km := ((sub.map Row.kills).sum : ℚ) / n
  let dm := ((sub.map Row.deaths).sum : ℚ) / n
  { hour := h
    kills := km
    deaths := dm
    score := ((sub.map Row.score).sum : ℚ) / n
    count := sub.length
    kd_ratio := if 0 < dm then km / dm else km }

/-- The column writes `df['date'] = ...` (line 773) and `df['hour'] = ...`
(line 822) applied to one row of the caller's table. -/
def setDateHour (r : Row) : Row :=
  { r with date := some (dateOf r), hour := some (hourOf r) }

/-- `get_gaming_session_analysis` (calculations.py lines 767-840).  The
second component is the caller's table after the call: the function writes
the derived `date` and `hour` columns into its input frame (it does not
copy `df` before the assignments of lines 773 and 822), so the table comes
back with those columns set whenever it was nonempty; the early return for
an empty table happens before any assignment. -/
def get_gaming_session_analysis (df : Table) : Option SessionAnalysis × Table :=
  if df = [] then (none, df)
  else
    let daily := dailyStats df
    let sids := unique (daily.map Daily.session_id)
    let sess := sids.map (fun sid => (sid, sessionInfoFor daily sid))
    let hours := pySort (fun a b => a ≤ b) (unique (df.map hourOf))
    (some
      { daily_stats := daily
        session_analysis := sess
        hourly_performance := hours.map (hourlyFor df)
        total_sessions := sess.length
        avg_session_duration :=
          if sess = [] then 0
          else ((sess.map (fun s => s.2.duration_days)).sum : ℚ) / (sess.length : ℚ) },
     df.map setDateHour)

/-- A Python value in a submitted match dict: `vnone` models both an
absent key and an explicit `None` (`dict.get` returns `None` for both,
and the two are not distinguished by any check of
`validate_match_data`). -/
inductive PyVal where
  | vnone : PyVal
  | vint : ℤ → PyVal
  | vstr : String → PyVal
deriving DecidableEq, Repr

/-- Python truthiness of a `PyVal`: `None`, `0` and `''` are falsy. -/
def pyTruthy : PyVal → Bool
  | .vnone => false
  | .vint i => i != 0
  | .vstr s => s != ""

/-- Python `v != 0`: only the integer `0` equals `0`. -/
def pyNeqZero : PyVal → Bool
  | .vnone => true
  | .vint i => i != 0
  | .vstr _ => true

/-- Whether `float(s)` succeeds, for the decimal literals relevant here:
optional sign, then digits with at most one decimal point (Python also
strips whitespace; exotic forms such as exponents or `inf` are not
exercised by any fact proved below). -/
def isFloatChars : List Char → Bool
  | [] => false
  | cs =>
    let ds := cs.takeWhile Char.isDigit
    let rest := cs.drop ds.length
    match rest with
    | [] => ds ≠ []
    | c :: t => c == '.' && (ds ≠ [] || t ≠ []) && t.all Char.isDigit

/-- Whether `float(v)` succeeds on a string value. -/
def isFloatStr (s : String) : Bool :=
  match s.trim.toList with
  | '+' :: t => isFloatChars t
  | '-' :: t => isFloatChars t
  | t => isFloatChars t

/-- One row of a submitted match, keyed as in the Python dicts that
`validate_match_data` receives. -/
structure SRow where
  player_name : PyVal
  kills : PyVal
  deaths : PyVal
  score : PyVal
  weapon : PyVal
  match_length : PyVal
  ping : PyVal
  coins : PyVal
  game_mode : PyVal
  assists : PyVal
deriving DecidableEq, Repr

/-- The required-field check of `validate_match_data` (data_processing.py
lines 109-112): an error unless the value is truthy or equal to `0`. -/
def requiredCheck (name : String) (v : PyVal) : List String :=
  if ¬ pyTruthy v ∧ pyNeqZero v then ["Missing required field: " ++ name] else []

/-- The numeric-field check (lines 115-121): a value that is present and
not `None` must parse as a float; integers always do. -/
def numericCheck (name : String) (v : PyVal) : List String :=
  match v with
  | .vnone => []
  | .vint _ => []
  | .vstr s => if isFloatStr s then [] else ["Invalid numeric value for " ++ name]

/-- All error messages collected for one submitted row, in source order:
the six required fields, the six numeric fields, then the team-assists
rule (lines 107-125). -/
def rowErrors (r : SRow) : List String :=
  requiredCheck "player_name" r.player_name ++
  requiredCheck "kills" r.kills ++
  requiredCheck "deaths" r.deaths ++
  requiredCheck "score" r.score ++
  requiredCheck "weapon" r.weapon ++
  requiredCheck "match_length" r.match_length ++
  numericCheck "kills" r.kills ++
  numericCheck "deaths" r.deaths ++
  numericCheck "score" r.score ++
  numericCheck "ping" r.ping ++
  numericCheck "coins" r.coins ++
  numericCheck "match_length" r.match_length ++
  (if r.game_mode == .vstr "Team" && r.assists == .vnone
    then ["Assists required for team matches"] else [])

/-- `validate_match_data` (data_processing.py lines 103-127): every
violation of every row is collected into one flat message list. -/
def validate_match_data (rows : List SRow) : List String :=
  (rows.map rowErrors).flatten

/-- A fully-populated row with the fields the scenarios vary. -/
def mkRow (mid dt : ℕ) (mode : String) (team : Option String) (name : String)
    (k d sc : ℕ) (a : Option ℕ) (tg : Option ℕ) : Row :=
  { match_id := mid, datetime := dt, game_mode := mode, map_name := "Refinery"
    team := team, player_name := name, kills := k, deaths := d, assists := a
    score := sc, weapon := "AR", ping := some 50, coins := some 10
    match_length := 10, tags := tg, date := none, hour := none }

/-- Scenario table for C1: one `Team` match, Team A scores {10, 15} (sum
25), Team B scores {5, 5} (sum 10). -/
def dfTeamAB : Table :=
  [ mkRow 1 100 "Team" (some "A") "A1" 5 2 10 (some 1) none
  , mkRow 1 100 "Team" (some "A") "A2" 6 3 15 (some 2) none
  , mkRow 1 100 "Team" (some "B") "B1" 2 5 5 (some 0) none
  , mkRow 1 100 "Team" (some "B") "B2" 3 6 5 (some 1) none ]

/-- Scenario table for C2: one `FFA` match, scores {20, 20, 15}. -/
def dfFFA : Table :=
  [ mkRow 7 100 "FFA" none "P1" 8 3 20 none none
  , mkRow 7 100 "FFA" none "P2" 7 4 20 none none
  , mkRow 7 100 "FFA" none "P3" 5 6 15 none none ]

/-- Failing input for C3: the `Team Confirm` match of
`test-utils/test_confirm_modes.py` (match 1000): Team1 collects 10 tags
to Team2's 5, but the individual scores are 140 > 130 > 110 > 100. -/
def dfTeamConfirm : Table :=
  [ mkRow 1000 100 "Team Confirm" (some "Team1") "Player1" 4 2 140 (some 1) (some 6)
  , mkRow 1000 100 "Team Confirm" (some "Team1") "Player2" 3 3 130 (some 2) (some 4)
  , mkRow 1000 100 "Team Confirm" (some "Team2") "Player3" 2 4 110 (some 0) (some 3)
  , mkRow 1000 100 "Team Confirm" (some "Team2") "Player4" 1 5 100 (some 1) (some 2) ]

/-- Sum of the `tags` column of the rows of a table on a given team. -/
def teamTagsSum (md : Table) (t : Option String) : ℕ :=
  ((List.filter (fun r => peq r.team t) md).map (fun r => r.tags.getD 0)).sum

/-- Failing input for C4: a nonempty table in which `Bob` never played. -/
def dfAlice : Table := [ mkRow 1 100 "FFA" none "Alice" 5 2 100 none none ]

/-- Scenario table for C6: four FFA matches for player `P`, chronological
results W, W, L, W (P tops the score in matches 1, 2 and 4). -/
def dfStreak : Table :=
  [ mkRow 1 100 "FFA" none "P" 5 2 10 none none
  , mkRow 1 100 "FFA" none "Q" 3 4 5 none none
  , mkRow 2 200 "FFA" none "P" 6 1 10 none none
  , mkRow 2 200 "FFA" none "Q" 2 5 5 none none
  , mkRow 3 300 "FFA" none "P" 1 6 5 none none
  , mkRow 3 300 "FFA" none "Q" 7 2 10 none none
  , mkRow 4 400 "FFA" none "P" 4 3 10 none none
  , mkRow 4 400 "FFA" none "Q" 3 3 5 none none ]

/-- Scenario table for C7: one match on each of day 1, day 2 and day 4
(day 3 missing), so two gaming sessions are expected. -/
def dfSessions : Table :=
  [ mkRow 1 1440 "FFA" none "Alice" 5 2 100 none none
  , mkRow 2 2940 "FFA" none "Alice" 3 4 80 none none
  , mkRow 3 5760 "FFA" none "Alice" 7 1 150 none none ]

/-- Witness table for C9: two players with decided FFA matches, giving
both a nonzero win rate and distinct roles. -/
def dfDuel : Table :=
  [ mkRow 1 100 "FFA" none "Ace" 9 1 30 none none
  , mkRow 1 100 "FFA" none "Bit" 2 8 10 none none
  , mkRow 2 200 "FFA" none "Ace" 8 2 25 none none
  , mkRow 2 200 "FFA" none "Bit" 3 7 12 none none ]

/-- A fully-populated valid submission row (C8). -/
def validSRow : SRow :=
  { player_name := .vstr "Alice", kills := .vint 5, deaths := .vint 2
    score := .vint 100, weapon := .vstr "AR", match_length := .vint 10
    ping := .vint 50, coins := .vint 3, game_mode := .vstr "Team"
    assists := .vint 1 }

/-- A submission row with two violations at once: no player name and no
match length (C8). -/
def badSRow : SRow :=
  { player_name := .vnone, kills := .vint 5, deaths := .vint 2
    score := .vint 100, weapon := .vstr "AR", match_length := .vnone
    ping := .vint 50, coins := .vint 3, game_mode := .vstr "FFA"
    assists := .vnone }

instance : Inhabited TeamPerf :=
  ⟨{ total_kd_ratio := 0, avg_kd_ratio := 0, total_win_rate := 0
     total_kills_per_min := 0, total_assists_per_min := 0, total_matches := 0
     team_size := 0, synergy_score := 0, predicted_win_rate := 0
     head_to_head_win_rate := none }⟩

/-- Witness table for C5: a degenerate single-team `Team` match of zero
length, so its player has zero total minutes and no decided match. -/
def dfZeroMin : Table :=
  [ { mkRow 1 100 "Team" (some "A") "Zed" 4 0 12 (some 1) none with match_length := 0 } ]

/-- The left fold of `max` dominates its start and every element, and is
one of them. -/
theorem foldl_max_spec (xs : List ℕ) (a : ℕ) :
    (xs.foldl max a = a ∨ xs.foldl max a ∈ xs) ∧
    a ≤ xs.foldl max a ∧ ∀ x ∈ xs, x ≤ xs.foldl max a := by
  induction xs generalizing a with
  | nil => simp
  | cons y ys ih =>
    obtain ⟨hmem, hle, hall⟩ := ih (max a y)
    refine ⟨?_, le_trans (le_max_left a y) hle, ?_⟩
    · rcases hmem with h | h
      · rcases max_choice a y with hc | hc
        · exact Or.inl (h.trans hc)
        · exact Or.inr (List.mem_cons.mpr (Or.inl (h.trans hc)))
      · exact Or.inr (List.mem_cons_of_mem _ h)
    · intro x hx
      rcases List.mem_cons.mp hx with rfl | hx
      · exact le_trans (le_max_right a x) hle
      · exact hall x hx

/-- pandas `.max()` of a column returns a member that bounds the column. -/
theorem natMaxNE_spec (l : List ℕ) (M : ℕ) (h : natMaxNE l = some M) :
    M ∈ l ∧ ∀ x ∈ l, x ≤ M := by
  cases l with
  | nil => simp [natMaxNE] at h
  | cons x xs =>
    simp only [natMaxNE, Option.some.injEq] at h
    obtain ⟨hmem, hle, hall⟩ := foldl_max_spec xs x
    subst h
    constructor
    · rcases hmem with h | h
      · rw [h]; exact List.mem_cons_self x xs
      · exact List.mem_cons_of_mem _ h
    · intro y hy
      rcases List.mem_cons.mp hy with rfl | hy
      · exact hle
      · exact hall y hy

/-- pandas `.max()` is defined on any nonempty column. -/
theorem natMaxNE_isSome (l : List ℕ) (h : l ≠ []) : ∃ M, natMaxNE l = some M := by
  cases l with
  | nil => exact absurd rfl h
  | cons x xs => exact ⟨xs.foldl max x, rfl⟩

/-- C1: in a `Team`-mode match, win attribution sums `score` within each
team and compares the querying team's sum against the maximum sum among
the other teams present: strictly greater is a win, strictly less a loss,
and an exact tie a draw (neither win nor loss).  On the concrete one-match
table `dfTeamAB` (Team A sums 25, Team B sums 10) both Team-A players
record a win, both Team-B players a loss, and `get_team_stats` reports
win rates 100.0 for A and 0.0 for B. -/
theorem c1_team_win_attribution :
    (∀ (df : Table) (p : String) (m : ℕ) (r0 pr : Row),
      (matchRows df m).head? = some r0 →
      r0.game_mode = "Team" →
      (List.filter (fun r => r.player_name == p) (matchRows df m)).head? = some pr →
      otherTeamNames (matchRows df m) pr.team ≠ [] →
      ((matchOutcome df p m = (1, 0) ↔
         ∀ u ∈ otherTeamNames (matchRows df m) pr.team,
           teamScoreSum (otherTeamRows (matchRows df m) pr.team) u
             < teamScoreSum (matchRows df m) pr.team) ∧
       (matchOutcome df p m = (0, 1) ↔
         ∃ u ∈ otherTeamNames (matchRows df m) pr.team,
           teamScoreSum (matchRows df m) pr.team
             < teamScoreSum (otherTeamRows (matchRows df m) pr.team) u) ∧
       (matchOutcome df p m = (0, 0) ↔
         (∀ u ∈ otherTeamNames (matchRows df m) pr.team,
           teamScoreSum (otherTeamRows (matchRows df m) pr.team) u
             ≤ teamScoreSum (matchRows df m) pr.team) ∧
         (∃ u ∈ otherTeamNames (matchRows df m) pr.team,
           teamScoreSum (otherTeamRows (matchRows df m) pr.team) u
             = teamScoreSum (matchRows df m) pr.team))))
    ∧ calculate_player_wins dfTeamAB "A1" = (1, 0, 100)
    ∧ calculate_player_wins dfTeamAB "A2" = (1, 0, 100)
    ∧ calculate_player_wins dfTeamAB "B1" = (0, 1, 0)
    ∧ calculate_player_wins dfTeamAB "B2" = (0, 1, 0)
    ∧ ((get_team_stats dfTeamAB).lookup "A").map TeamEntry.win_rate = some 100
    ∧ ((get_team_stats dfTeamAB).lookup "B").map TeamEntry.win_rate = some 0 := by
  refine ⟨?_, by with_unfolding_all decide, by with_unfolding_all decide,
    by with_unfolding_all decide, by with_unfolding_all decide,
    by with_unfolding_all decide, by with_unfolding_all decide⟩
  intro df p m r0 pr h0 hmode hp hnames
  have hne : ¬ (otherTeamRows (matchRows df m) pr.team = []) := by
    intro hempty
    apply hnames
    simp [otherTeamNames, hempty, unique, uniqAux]
  obtain ⟨M, hM⟩ := natMaxNE_isSome
    ((otherTeamNames (matchRows df m) pr.team).map
      (fun u => teamScoreSum (otherTeamRows (matchRows df m) pr.team) u))
    (by simpa using hnames)
  obtain ⟨hMmem, hMub⟩ := natMaxNE_spec _ _ hM
  obtain ⟨u0, hu0mem, hu0⟩ := List.mem_map.mp hMmem
  have hub : ∀ u ∈ otherTeamNames (matchRows df m) pr.team,
      teamScoreSum (otherTeamRows (matchRows df m) pr.team) u ≤ M := by
    intro u hu
    exact hMub _ (List.mem_map.mpr ⟨u, hu, rfl⟩)
  have hout : matchOutcome df p m =
      (if teamScoreSum (matchRows df m) pr.team > M then ((1 : ℕ), (0 : ℕ))
       else if teamScoreSum (matchRows df m) pr.team < M then (0, 1) else (0, 0)) := by
    have hM' : maxOtherTeamScore (matchRows df m) pr.team = some M := hM
    simp only [matchOutcome, h0, hmode, if_true, hp, hM', if_neg hne]
  set ts := teamScoreSum (matchRows df m) pr.team with hts
  rcases Nat.lt_trichotomy ts M with hlt | heq | hgt
  · rw [hout, if_neg (by omega), if_pos hlt]
    refine ⟨⟨fun h => absurd h (by decide), ?_⟩,
      ⟨fun _ => ⟨u0, hu0mem, by omega⟩, fun _ => rfl⟩,
      ⟨fun h => absurd h (by decide), ?_⟩⟩
    · intro hall
      exact absurd (hall u0 hu0mem) (by omega)
    · rintro ⟨hall, -⟩
      exact absurd (hall u0 hu0mem) (by omega)
  · rw [hout, if_neg (by omega), if_neg (by omega)]
    refine ⟨⟨fun h => absurd h (by decide), ?_⟩, ⟨fun h => absurd h (by decide), ?_⟩,
      ⟨fun _ => ⟨fun u hu => ?_, ⟨u0, hu0mem, by omega⟩⟩, fun _ => rfl⟩⟩
    · intro hall
      exact absurd (hall u0 hu0mem) (by omega)
    · rintro ⟨u, hu, hltu⟩
      exact absurd (hub u hu) (by omega)
    · have := hub u hu
      omega
  · rw [hout, if_pos hgt]
    refine ⟨⟨fun _ u hu => lt_of_le_of_lt (hub u hu) hgt, fun _ => rfl⟩,
      ⟨fun h => absurd h (by decide), ?_⟩, ⟨fun h => absurd h (by decide), ?_⟩⟩
    · rintro ⟨u, hu, hltu⟩
      exact absurd (hub u hu) (by omega)
    · rintro ⟨-, u, hu, hequ⟩
      exact absurd (hub u hu) (by omega)

/-- Witness for C1 at the concrete table: player `A1` in match 1 of
`dfTeamAB` satisfies every hypothesis, the win condition holds, and the
attribution is a win. -/
theorem c1_witness :
    matchOutcome dfTeamAB "A1" 1 = (1, 0)
    ∧ calculate_player_wins dfTeamAB "A1" = (1, 0, 100) := by
  have h := c1_team_win_attribution
  refine ⟨?_, h.2.1⟩
  have hmain := h.1 dfTeamAB "A1" 1
    (mkRow 1 100 "Team" (some "A") "A1" 5 2 10 (some 1) none)
    (mkRow 1 100 "Team" (some "A") "A1" 5 2 10 (some 1) none)
    (by with_unfolding_all decide) (by decide) (by with_unfolding_all decide)
    (by with_unfolding_all decide)
  exact hmain.1.mpr (by with_unfolding_all decide)

/-- C2: in a non-`Team` (FFA/Confirm) match, win attribution compares the
player's individual `score` against the maximum over all rows of the
match: equal to the maximum is a win (all players tied at the top win),
strictly below is a loss.  On the concrete FFA table `dfFFA` with scores
{20, 20, 15}, both 20-scorers record a win and the 15-scorer a loss. -/
theorem c2_ffa_win_attribution :
    (∀ (df : Table) (p : String) (m : ℕ) (r0 pr : Row),
      (matchRows df m).head? = some r0 →
      r0.game_mode ≠ "Team" →
      (List.filter (fun r => r.player_name == p) (matchRows df m)).head? = some pr →
      ((matchOutcome df p m = (1, 0) ↔ ∀ r ∈ matchRows df m, r.score ≤ pr.score) ∧
       (matchOutcome df p m = (0, 1) ↔ ∃ r ∈ matchRows df m, pr.score < r.score)))
    ∧ calculate_player_wins dfFFA "P1" = (1, 0, 100)
    ∧ calculate_player_wins dfFFA "P2" = (1, 0, 100)
    ∧ calculate_player_wins dfFFA "P3" = (0, 1, 0) := by
  refine ⟨?_, by with_unfolding_all decide, by with_unfolding_all decide,
    by with_unfolding_all decide⟩
  intro df p m r0 pr h0 hmode hp
  have hprmem : pr ∈ matchRows df m :=
    List.mem_of_mem_filter (List.mem_of_mem_head? hp)
  have hnil : matchRows df m ≠ [] := by
    intro hempty
    rw [hempty] at h0
    exact Option.noConfusion h0
  obtain ⟨M, hM⟩ := natMaxNE_isSome ((matchRows df m).map Row.score)
    (by simpa using hnil)
  obtain ⟨hMmem, hMub⟩ := natMaxNE_spec _ _ hM
  obtain ⟨rM, hrMmem, hrM⟩ := List.mem_map.mp hMmem
  have hub : ∀ r ∈ matchRows df m, r.score ≤ M := by
    intro r hr
    exact hMub _ (List.mem_map.mpr ⟨r, hr, rfl⟩)
  have hout : matchOutcome df p m =
      (if pr.score = M then ((1 : ℕ), (0 : ℕ)) else (0, 1)) := by
    simp only [matchOutcome, h0, if_neg hmode, hp, hM]
  by_cases heq : pr.score = M
  · rw [hout, if_pos heq]
    refine ⟨⟨fun _ r hr => by have := hub r hr; omega, fun _ => rfl⟩,
      ⟨fun h => absurd h (by decide), ?_⟩⟩
    rintro ⟨r, hr, hltr⟩
    exact absurd (hub r hr) (by omega)
  · have hlt : pr.score < M := lt_of_le_of_ne (hub pr hprmem) heq
    rw [hout, if_neg heq]
    refine ⟨⟨fun h => absurd h (by decide), ?_⟩,
      ⟨fun _ => ⟨rM, hrMmem, by omega⟩, fun _ => rfl⟩⟩
    intro hall
    exact absurd (hall rM hrMmem) (by omega)

/-- Witness for C2 at the concrete table: player `P2` in match 7 of
`dfFFA` ties the top score and the attribution is a win. -/
theorem c2_witness :
    matchOutcome dfFFA "P2" 7 = (1, 0)
    ∧ calculate_player_wins dfFFA "P3" = (0, 1, 0) := by
  have h := c2_ffa_win_attribution
  refine ⟨?_, h.2.2.2⟩
  have hmain := h.1 dfFFA "P2" 7
    (mkRow 7 100 "FFA" none "P1" 8 3 20 none none)
    (mkRow 7 100 "FFA" none "P2" 7 4 20 none none)
    (by with_unfolding_all decide) (by decide) (by with_unfolding_all decide)
  exact hmain.1.mpr (by with_unfolding_all decide)

/-- C3 (code slip): `calculate_player_wins` never consults `tags` or the
Confirm modes.  On the `Team Confirm` match of
`test-utils/test_confirm_modes.py`, Team1 collects 10 tags to Team2's 5,
so under the claimed rule every Team1 player wins; but the code routes the
match into the individual-score (FFA) branch, so only the top scorer
`Player1` wins and teammate `Player2` is recorded a loss. -/
theorem c3_confirm_mode_ignored :
    teamTagsSum dfTeamConfirm (some "Team1") = 10
    ∧ teamTagsSum dfTeamConfirm (some "Team2") = 5
    ∧ matchOutcome dfTeamConfirm "Player2" 1000 = (0, 1)
    ∧ calculate_player_wins dfTeamConfirm "Player2" = (0, 1, 0)
    ∧ calculate_player_wins dfTeamConfirm "Player1" = (1, 0, 100)
    ∧ calculate_player_wins dfTeamConfirm "Player3" = (0, 1, 0) := by
  with_unfolding_all decide

/-- C4 (code slip): on a nonempty table, `get_player_streaks` for a player
with no rows divides by `len(recent_matches) == 0` (calculations.py line
180) and raises `ZeroDivisionError` instead of returning an empty
result. -/
theorem c4_streaks_raise_on_missing_player :
    get_player_streaks dfAlice "Bob" = .zeroDivErr
    ∧ dfAlice ≠ []
    ∧ (∀ r ∈ dfAlice, r.player_name ≠ "Bob")
    ∧ get_player_stats dfAlice "Bob" = none := by
  with_unfolding_all decide

/-- `round` of a nonnegative rational is nonnegative. -/
theorem round_nonneg_q (q : ℚ) (h : 0 ≤ q) : (0 : ℤ) ≤ round q := by
  rw [round_eq]
  rw [Int.le_floor]
  push_cast
  linarith

/-- `pyRound2` preserves nonnegativity. -/
theorem pyRound2_nonneg (q : ℚ) (h : 0 ≤ q) : 0 ≤ pyRound2 q := by
  unfold pyRound2
  have h1 : (0 : ℤ) ≤ round (q * 100) := round_nonneg_q _ (by positivity)
  have h2 : (0 : ℚ) ≤ ((round (q * 100) : ℤ) : ℚ) := by exact_mod_cast h1
  positivity

/-- C5: every ratio with a possibly-zero denominator has a defined
fallback and is never `NaN`: `calculate_kd_ratio k 0` is `k` (or 0 when
`k` is 0) and is never negative; the per-minute rates of
`get_player_stats` are 0 when the total minutes are 0; and the win rate of
`calculate_player_wins` is 0.0 when no match was decided. -/
theorem c5_zero_denominator_fallbacks :
    (∀ k : ℕ, calculate_kd_ratio k 0 = if 0 < k then (k : ℚ) else 0)
    ∧ (∀ k d : ℕ, 0 ≤ calculate_kd_ratio k d)
    ∧ (∀ (df : Table) (p : String) (s : PlayerStats),
        get_player_stats df p = some s → s.total_minutes = 0 →
        s.kills_per_minute = 0 ∧ s.deaths_per_minute = 0
          ∧ s.assists_per_minute = 0 ∧ s.score_per_minute = 0)
    ∧ (∀ (df : Table) (p : String),
        (calculate_player_wins df p).1 + (calculate_player_wins df p).2.1 = 0 →
        (calculate_player_wins df p).2.2 = 0) := by
  refine ⟨fun k => rfl, ?_, ?_, ?_⟩
  · intro k d
    unfold calculate_kd_ratio
    by_cases hd : d = 0
    · rw [if_pos hd]
      by_cases hk : 0 < k
      · rw [if_pos hk]
        positivity
      · rw [if_neg hk]
    · rw [if_neg hd]
      exact pyRound2_nonneg _ (by positivity)
  · intro df p s hs h0
    unfold get_player_stats at hs
    dsimp only at hs
    split at hs
    · exact Option.noConfusion hs
    · split at hs <;> split at hs <;>
        first
        | exact Option.noConfusion hs
        | (simp only [Option.some.injEq] at hs
           subst hs
           dsimp only at h0 ⊢
           exact ⟨by rw [if_neg (by omega)], by rw [if_neg (by omega)],
             by rw [if_neg (by simp [h0])], by rw [if_neg (by omega)]⟩)
  · intro df p h
    unfold calculate_player_wins at h ⊢
    split at h
    · next hdf =>
      rw [if_pos hdf]
    · next hdf =>
      rw [if_neg hdf]
      dsimp only at h ⊢
      rw [if_neg (by omega)]

/-- Witness for C5: `calculate_kd_ratio 3 0 = 3`; a divided case is
nonnegative; the zero-length match of `dfZeroMin` gives its player 0 total
minutes hence 0 kills per minute; the same degenerate single-team match is
undecided, so the win rate falls back to 0. -/
theorem c5_witness :
    calculate_kd_ratio 3 0 = 3
    ∧ 0 ≤ calculate_kd_ratio 7 2
    ∧ ((get_player_stats dfZeroMin "Zed").getD default).kills_per_minute = 0
    ∧ (calculate_player_wins dfZeroMin "Zed").2.2 = 0 := by
  have h := c5_zero_denominator_fallbacks
  refine ⟨(h.1 3).trans (by norm_num), h.2.1 7 2, ?_, ?_⟩
  · exact (h.2.2.1 dfZeroMin "Zed" ((get_player_stats dfZeroMin "Zed").getD default)
      (by with_unfolding_all decide) (by with_unfolding_all decide)).1
  · exact h.2.2.2 dfZeroMin "Zed" (by with_unfolding_all decide)

/-- The head run of a cons: one longer when the head matches, else 0. -/
theorem headRun_cons (b x : Bool) (l : List Bool) :
    headRun b (x :: l) = if x == b then headRun b l + 1 else 0 := by
  by_cases h : x == b <;> simp [headRun, List.takeWhile_cons, h]

/-- Appending a match extends the trailing run; a mismatch resets it. -/
theorem suffixRun_append (b x : Bool) (l : List Bool) :
    suffixRun b (l ++ [x]) = if x == b then suffixRun b l + 1 else 0 := by
  unfold suffixRun
  rw [List.reverse_append]
  simp [headRun_cons]

/-- `natMaxF` of a cons. -/
theorem natMaxF_cons (a : ℕ) (l : List ℕ) : natMaxF (a :: l) = max a (natMaxF l) := rfl

/-- Appending an element updates the longest run by the new trailing run. -/
theorem maxRun_append (b x : Bool) (l : List Bool) :
    maxRun b (l ++ [x]) = max (if x == b then suffixRun b l + 1 else 0) (maxRun b l) := by
  unfold maxRun suffixRun
  rw [List.reverse_append]
  simp only [List.reverse_cons, List.reverse_nil, List.nil_append, List.singleton_append,
    List.tails_cons, List.map_cons, natMaxF_cons, headRun_cons]

/-- The single streak scan computes the two trailing runs and the two
longest runs of the chronological win/loss booleans. -/
theorem streakScan_spec (bs : List Bool) :
    streakScan bs = (suffixRun true bs, suffixRun false bs, maxRun true bs, maxRun false bs) := by
  induction bs using List.reverseRecOn with
  | nil => rfl
  | append_singleton l x ih =>
    unfold streakScan at ih ⊢
    rw [List.foldl_append, ih]
    cases x
    · simp [streakStep, suffixRun_append, maxRun_append, max_comm]
    · simp [streakStep, suffixRun_append, maxRun_append, max_comm]

/-- A list ending in `b` has a nonempty trailing run of `b`. -/
theorem suffixRun_pos (b : Bool) (l : List Bool) (h : l.getLast? = some b) :
    0 < suffixRun b l := by
  obtain ⟨l', rfl⟩ := List.getLast?_eq_some_iff.mp h
  rw [suffixRun_append]
  simp

/-- C6: streak analysis builds the chronological per-match win/loss
booleans (a `true` exactly where 4.1 attributes a win) and one scan yields
the signed current streak (trailing run, positive after a final win,
negative after a final loss), the longest win run, the longest loss run,
and the win rate over the last at-most-10 matches; the concrete sequence
W, W, L, W of `dfStreak` yields current_streak 1, max_win_streak 2,
max_loss_streak 1. -/
theorem c6_streaks :
    (∀ (df : Table) (p : String) (m : ℕ),
        wonMatch df p m = true ↔ matchOutcome df p m = (1, 0))
    ∧ (∀ (df : Table) (p : String) (s : Streaks),
        get_player_streaks df p = .ok s →
        (s.max_win_streak = maxRun true (streakBools df p)
         ∧ s.max_loss_streak = maxRun false (streakBools df p)
         ∧ (∀ b, (streakBools df p).getLast? = some b →
             s.current_streak = (if b then (suffixRun true (streakBools df p) : ℤ)
               else -(suffixRun false (streakBools df p) : ℤ)))
         ∧ ((streakBools df p).getLast? = some true → 0 < s.current_streak)
         ∧ ((streakBools df p).getLast? = some false → s.current_streak < 0)
         ∧ s.recent_win_rate = pyRound1
             ((((lastN 10 (streakBools df p)).filter (fun x => x)).length : ℚ)
               / ((lastN 10 (streakBools df p)).length : ℚ) * 100)))
    ∧ get_player_streaks dfStreak "P" = .ok
        { current_streak := 1, max_win_streak := 2, max_loss_streak := 1
          recent_win_rate := 75, total_matches := 4, total_wins := 3
          total_losses := 1 } := by
  refine ⟨?_, ?_, by with_unfolding_all decide⟩
  · intro df p m
    unfold wonMatch matchOutcome
    dsimp only
    cases h0 : (matchRows df m).head? with
    | none => simp [Prod.ext_iff]
    | some r0 =>
      by_cases hmode : r0.game_mode = "Team"
      · simp only [hmode, if_true]
        cases hp : (List.filter (fun r => r.player_name == p) (matchRows df m)).head? with
        | none => simp [Prod.ext_iff]
        | some pr =>
          by_cases hne : otherTeamRows (matchRows df m) pr.team = []
          · simp [hne, Prod.ext_iff]
          · simp only [if_neg hne]
            cases hM : maxOtherTeamScore (matchRows df m) pr.team with
            | none => simp [Prod.ext_iff]
            | some mx =>
              by_cases hgt : teamScoreSum (matchRows df m) pr.team > mx
              · simp [hgt, Prod.ext_iff]
              · by_cases hlt : teamScoreSum (matchRows df m) pr.team < mx
                · simp [hgt, hlt, Prod.ext_iff]
                · simp [hgt, hlt, Prod.ext_iff]
      · simp only [if_neg hmode]
        cases hp : (List.filter (fun r => r.player_name == p) (matchRows df m)).head? with
        | none => simp [Prod.ext_iff]
        | some pr =>
          cases hM : natMaxNE ((matchRows df m).map Row.score) with
          | none => simp [Prod.ext_iff]
          | some mx =>
            by_cases hsc : pr.score = mx
            · simp [hsc, Prod.ext_iff]
            · simp [hsc, Prod.ext_iff]
  · intro df p s hok
    unfold get_player_streaks at hok
    split at hok
    · exact StreaksResult.noConfusion hok
    · dsimp only at hok
      cases hlast : (sortedResults df p).getLast? with
      | none =>
        rw [hlast] at hok
        exact StreaksResult.noConfusion hok
      | some lastR =>
        rw [hlast] at hok
        simp only [StreaksResult.ok.injEq] at hok
        subst hok
        have hbs : streakBools df p = (sortedResults df p).map MatchResult.won := rfl
        have hblast : (streakBools df p).getLast? = some lastR.won := by
          rw [hbs, List.getLast?_map, hlast]
          rfl
        have hscan := streakScan_spec ((sortedResults df p).map MatchResult.won)
        have hrec : (if 10 ≤ (sortedResults df p).length
              then (sortedResults df p).drop ((sortedResults df p).length - 10)
              else sortedResults df p)
            = (sortedResults df p).drop ((sortedResults df p).length - 10) := by
          split
          · rfl
          · next h10 =>
            rw [Nat.sub_eq_zero_of_le (by omega), List.drop_zero]
        refine ⟨?_, ?_, ?_, ?_, ?_, ?_⟩
        · dsimp only
          rw [hscan, hbs]
        · dsimp only
          rw [hscan, hbs]
        · intro b hb
          rw [hblast, Option.some.injEq] at hb
          subst hb
          dsimp only
          rw [hscan]
          cases hwon : lastR.won <;> simp [hbs]
        · intro htrue
          have : lastR.won = true := by
            rw [hblast, Option.some.injEq] at htrue
            exact htrue
          dsimp only
          rw [hscan, this]
          have hpos := suffixRun_pos true (streakBools df p) htrue
          rw [hbs] at hpos
          simpa using hpos
        · intro hfalse
          have : lastR.won = false := by
            rw [hblast, Option.some.injEq] at hfalse
            exact hfalse
          dsimp only
          rw [hscan, this]
          have hpos := suffixRun_pos false (streakBools df p) hfalse
          rw [hbs] at hpos
          simp only [if_false, Bool.false_eq_true, Left.neg_neg_iff]
          exact_mod_cast hpos
        · dsimp only
          rw [hrec]
          have hlen : (lastN 10 (streakBools df p)).length
              = ((sortedResults df p).drop ((sortedResults df p).length - 10)).length := by
            rw [hbs]
            unfold lastN
            rw [List.length_map, ← List.map_drop, List.length_map]
          have hcount : ((lastN 10 (streakBools df p)).filter (fun x => x)).length
              = (((sortedResults df p).drop ((sortedResults df p).length - 10)).filter
                  (fun r => r.won)).length := by
            rw [hbs]
            unfold lastN
            rw [List.length_map, ← List.map_drop, List.filter_map, List.length_map]
            rfl
          rw [hlen, hcount]

/-- Witness for C6 at the concrete table: applying the scan specification
to the `.ok` result of `dfStreak` gives the longest win run 2 as the
`maxRun` of its chronological booleans. -/
theorem c6_witness :
    maxRun true (streakBools dfStreak "P") = 2
    ∧ maxRun false (streakBools dfStreak "P") = 1 := by
  have h := c6_streaks
  have hspec := h.2.1 dfStreak "P"
    { current_streak := 1, max_win_streak := 2, max_loss_streak := 1
      recent_win_rate := 75, total_matches := 4, total_wins := 3
      total_losses := 1 } h.2.2
  exact ⟨hspec.1.symm, hspec.2.1.symm⟩

/-- The adjacency invariant of session assignment: walking the remaining
dates from a previous date and its session id, each date keeps the session
id exactly when it is one day after its predecessor, and otherwise gets
the next id. -/
theorem sessionIdsAux_chain (ds : List ℕ) :
    ∀ (prev sid : ℕ), List.Chain' (· < ·) (prev :: ds) →
    List.Chain (fun p q : ℕ × ℕ => (q.2 = p.2 ↔ q.1 = p.1 + 1) ∧ (q.2 = p.2 ∨ q.2 = p.2 + 1))
      (prev, sid) (ds.zip (sessionIdsAux prev sid ds)) := by
  induction ds with
  | nil => intro prev sid _; exact List.Chain.nil
  | cons d ds ih =>
    intro prev sid hchain
    obtain ⟨hlt, htail⟩ := List.chain'_cons.mp hchain
    unfold sessionIdsAux
    by_cases hgap : d - prev > 1
    · simp only [if_pos hgap, List.zip_cons_cons]
      refine List.Chain.cons
        ⟨⟨fun h => absurd (show sid + 1 = sid from h) (by omega),
          fun h => absurd (show d = prev + 1 from h) (by omega)⟩,
         Or.inr rfl⟩
        (ih d (sid + 1) htail)
    · simp only [if_neg hgap, List.zip_cons_cons]
      refine List.Chain.cons
        ⟨⟨fun _ => show d = prev + 1 by omega, fun _ => rfl⟩, Or.inl rfl⟩
        (ih d sid htail)

/-- `sessionIdsAux` assigns one id per date. -/
theorem sessionIdsAux_length (ds : List ℕ) :
    ∀ prev sid, (sessionIdsAux prev sid ds).length = ds.length := by
  induction ds with
  | nil => intro _ _; rfl
  | cons d ds ih =>
    intro prev sid
    unfold sessionIdsAux
    simp [ih]

/-- C7: over any strictly increasing list of play dates, session
assignment gives one id per date, adjacent dates share an id exactly when
they are consecutive (gap of one day), and an id never grows by more than
one; on the concrete table `dfSessions` with play days {1, 2, 4} the
analysis produces exactly two sessions, {day 1, day 2} (2 days long) and
{day 4} (1 day long). -/
theorem c7_session_segmentation :
    (∀ ds : List ℕ, List.Chain' (· < ·) ds →
      ((sessionIds ds).length = ds.length ∧
       List.Chain' (fun p q : ℕ × ℕ =>
           (q.2 = p.2 ↔ q.1 = p.1 + 1) ∧ (q.2 = p.2 ∨ q.2 = p.2 + 1))
         (ds.zip (sessionIds ds))))
    ∧ ((get_gaming_session_analysis dfSessions).1.map (fun a =>
         (a.total_sessions,
          a.daily_stats.map (fun d => (d.date, d.session_id)),
          a.session_analysis.map (fun e => (e.1, e.2.start_date, e.2.end_date)))))
       = some (2, [(1, 1), (2, 1), (4, 2)], [(1, 1, 2), (2, 4, 4)])
    ∧ ((get_gaming_session_analysis dfSessions).1.map (fun a =>
         a.session_analysis.map (fun e => e.2.duration_days))) = some [2, 1] := by
  refine ⟨?_, by with_unfolding_all decide, by with_unfolding_all decide⟩
  intro ds hchain
  cases ds with
  | nil => exact ⟨rfl, by simp⟩
  | cons d ds =>
    constructor
    · unfold sessionIds
      simp [sessionIdsAux_length]
    · unfold sessionIds
      simp only [List.zip_cons_cons]
      show List.Chain _ (d, 1) (ds.zip (sessionIdsAux d 1 ds))
      exact sessionIdsAux_chain ds d 1 hchain

/-- Witness for C7: the session-id properties instantiated on the play
dates {1, 2, 4} of the scenario. -/
theorem c7_witness :
    (sessionIds [1, 2, 4]).length = 3
    ∧ List.Chain' (fun p q : ℕ × ℕ =>
        (q.2 = p.2 ↔ q.1 = p.1 + 1) ∧ (q.2 = p.2 ∨ q.2 = p.2 + 1))
      ([1, 2, 4].zip (sessionIds [1, 2, 4])) := by
  have h := c7_session_segmentation.1 [1, 2, 4]
    (by norm_num [List.chain'_cons, List.chain'_singleton])
  exact ⟨h.1, h.2⟩

/-- C8: `validate_match_data` collects one human-readable message per
violation and never short-circuits: it distributes over concatenation of
submissions, a row missing `match_length` always yields a message naming
`match_length` (hence a nonempty list), a fully-populated valid row yields
`[]`, and a row with two violations reports both messages at once. -/
theorem c8_validation_collects :
    (∀ l1 l2 : List SRow,
      validate_match_data (l1 ++ l2) = validate_match_data l1 ++ validate_match_data l2)
    ∧ (∀ r : SRow, r.match_length = .vnone →
        ("Missing required field: match_length" ∈ validate_match_data [r]
         ∧ validate_match_data [r] ≠ []))
    ∧ validate_match_data [validSRow] = []
    ∧ validate_match_data [badSRow] =
        ["Missing required field: player_name", "Missing required field: match_length"] := by
  refine ⟨?_, ?_, by with_unfolding_all decide, by with_unfolding_all decide⟩
  · intro l1 l2
    unfold validate_match_data
    rw [List.map_append, List.flatten_append]
  · intro r hml
    have hmem : "Missing required field: match_length" ∈ validate_match_data [r] := by
      simp [validate_match_data, rowErrors, hml, requiredCheck, pyTruthy, pyNeqZero]
    exact ⟨hmem, List.ne_nil_of_mem hmem⟩

/-- Witness for C8: the two-violation row instantiates the missing
`match_length` rule. -/
theorem c8_witness :
    "Missing required field: match_length" ∈ validate_match_data [badSRow]
    ∧ validate_match_data [badSRow] ≠ [] := by
  exact c8_validation_collects.2.1 badSRow rfl

/-- Shifting a nonnegative bonus out of a capped sum: the code computes
`min(min(a, 95) + s, 95)` while the spec states `min(95, a + s)`; the two
agree for `s ≥ 0`. -/
theorem min_cap_shift (a s : ℚ) (hs : 0 ≤ s) :
    min (min a 95 + s) 95 = min 95 (a + s) := by
  rcases le_total a 95 with h | h
  · rw [min_eq_left h, min_comm]
  · rw [min_eq_right h, min_eq_right (by linarith), min_eq_left (by linarith)]

/-- C9: for every roster with at least one known player,
`simulate_team_scenario` computes synergy as 10 per distinct role plus 20
when both Killer and Support appear plus 15 when a Leader appears, capped
at 100; the predicted win rate equals
`min(95, avg_kd*25 + win_rate*0.5 + synergy*0.3)`; and with an opponent
roster that has known players, the head-to-head rate is
`50 + 0.8*(team_strength - opponent_strength)` clamped to `[5, 95]`. -/
theorem c9_scenario_simulation :
    ∀ (df : Table) (comp : List String) (opp : Option (List String)) (perf : TeamPerf),
      simulate_team_scenario df comp opp = some perf →
      (perf.synergy_score = min ((unique (rosterRoles df comp)).length * 10
          + (if "Killer" ∈ rosterRoles df comp ∧ "Support" ∈ rosterRoles df comp then 20 else 0)
          + (if "Leader" ∈ rosterRoles df comp then 15 else 0)) 100
       ∧ perf.predicted_win_rate = min 95 (perf.avg_kd_ratio * 25
          + perf.total_win_rate * (1/2) + (perf.synergy_score : ℚ) * (3/10))
       ∧ ∀ ol, opp = some ol → knownPlayers df ol ≠ [] →
           perf.head_to_head_win_rate = some (max (min (50
             + (perf.predicted_win_rate - baseStrength
                 (qSum ((rosterStats df ol).map PlayerStats.kd_ratio)
                   / ((knownPlayers df ol).length : ℚ))
                 (qSum ((rosterStats df ol).map PlayerStats.win_rate)
                   / ((knownPlayers df ol).length : ℚ)))
             * (4/5)) 95) 5)) := by
  intro df comp opp perf hsim
  unfold simulate_team_scenario at hsim
  split at hsim
  · exact Option.noConfusion hsim
  · dsimp only at hsim
    split at hsim
    · exact Option.noConfusion hsim
    · simp only [Option.some.injEq] at hsim
      subst hsim
      refine ⟨rfl, ?_, ?_⟩
      · dsimp only
        unfold baseStrength
        exact min_cap_shift _ _ (by positivity)
      · intro ol hol hk
        subst hol
        dsimp only
        rw [if_neg hk]

/-- Witness for C9: the roster `["Ace"]` against `["Bit"]` on `dfDuel`
satisfies the hypotheses; its synergy obeys the formula and the
head-to-head key is present. -/
theorem c9_witness :
    ((simulate_team_scenario dfDuel ["Ace"] (some ["Bit"])).getD default).synergy_score
      = min ((unique (rosterRoles dfDuel ["Ace"])).length * 10
          + (if "Killer" ∈ rosterRoles dfDuel ["Ace"] ∧ "Support" ∈ rosterRoles dfDuel ["Ace"]
             then 20 else 0)
          + (if "Leader" ∈ rosterRoles dfDuel ["Ace"] then 15 else 0)) 100
    ∧ ((simulate_team_scenario dfDuel ["Ace"] (some ["Bit"])).getD default).head_to_head_win_rate
        ≠ none := by
  have hsome : simulate_team_scenario dfDuel ["Ace"] (some ["Bit"])
      = some ((simulate_team_scenario dfDuel ["Ace"] (some ["Bit"])).getD default) := by
    with_unfolding_all decide
  have h := c9_scenario_simulation dfDuel ["Ace"] (some ["Bit"]) _ hsome
  refine ⟨h.1, ?_⟩
  rw [h.2.2 ["Bit"] rfl (by with_unfolding_all decide)]
  exact fun hc => Option.noConfusion hc

/-- A list map that fixes the whole list fixes every element. -/
theorem list_map_eq_self {α : Type} (l : List α) (f : α → α) (h : l.map f = l) :
    ∀ x ∈ l, f x = x := by
  induction l with
  | nil => intro x hx; cases hx
  | cons a t ih =>
    simp only [List.map_cons, List.cons.injEq] at h
    intro x hx
    rcases List.mem_cons.mp hx with rfl | hx
    · exact h.1
    · exact ih h.2 x hx

/-- C10 counterexample: `get_gaming_session_analysis` does modify its
input table — on the one-row table `dfAlice` the table after the call
differs from the table before it (the `date`/`hour` columns were written
into it). -/
theorem c10_counterexample :
    (get_gaming_session_analysis dfAlice).2 ≠ dfAlice := by
  with_unfolding_all decide

/-- C10 (amended): every core analytics operation except
`get_gaming_session_analysis` only reads the table; that one function
returns the caller's table with the derived `date` and `hour` columns
written into every row (lines 773 and 822 assign into the input frame),
so the table after the call differs from the input whenever some row did
not already carry its `date` column. -/
theorem c10_session_analysis_mutates :
    ∀ df : Table,
      ((get_gaming_session_analysis df).2 = if df = [] then df else df.map setDateHour)
      ∧ ((∃ r ∈ df, r.date ≠ some (dateOf r)) → (get_gaming_session_analysis df).2 ≠ df) := by
  intro df
  constructor
  · by_cases hdf : df = [] <;> simp [get_gaming_session_analysis, hdf]
  · rintro ⟨r, hr, hdate⟩ heq
    have hdf : df ≠ [] := by
      rintro rfl
      cases hr
    have hfst : (get_gaming_session_analysis df).2 = df.map setDateHour := by
      simp [get_gaming_session_analysis, hdf]
    rw [hfst] at heq
    have hfix := list_map_eq_self df setDateHour heq r hr
    exact hdate ((congrArg Row.date hfix).symm)

/-- Witness for C10 at the concrete table: the table comes back with the
columns written, and differs from the input. -/
theorem c10_witness :
    ((get_gaming_session_analysis dfAlice).2
      = if dfAlice = [] then dfAlice else dfAlice.map setDateHour)
    ∧ (get_gaming_session_analysis dfAlice).2 ≠ dfAlice := by
  have h := c10_session_analysis_mutates dfAlice
  exact ⟨h.1, h.2 ⟨mkRow 1 100 "FFA" none "Alice" 5 2 100 none none, by decide, by decide⟩⟩
